import Mathlib

/-!
# Drought Predictor — verification of the forecast-to-alert pipeline

Shallow embedding of the Drought Predictor repository (React client under
`client/src`, FastAPI backend described by the spec) together with proofs of
the specification claims.

Dates are embedded as day counts (days since 1970-01-01), with civil-calendar
conversions so that ISO date strings can be computed exactly.  NDVI values,
forecast means and change rates are embedded as exact rationals `ℚ`.
-/

namespace DroughtPredictor

/-! ## Calendar dates

Days-from-civil and civil-from-days conversions (standard arithmetic
calendar algorithms over `Int`, with Euclidean division). -/

/-- Day count (days since 1970-01-01) of a civil calendar date `y-m-d`. -/
def civilToDays (y m d : Int) : Int :=
  let y' := if m ≤ 2 then y - 1 else y
  let era := (if 0 ≤ y' then y' else y' - 399) / 400
  let yoe := y' - era * 400
  let mp := (m + 9) % 12
  let doy := (153 * mp + 2) / 5 + d - 1
  let doe := yoe * 365 + yoe / 4 - yoe / 100 + doy
  era * 146097 + doe - 719468

/-- Civil calendar date `(y, m, d)` of a day count. -/
def daysToCivil (z : Int) : Int × Int × Int :=
  let z' := z + 719468
  let era := (if 0 ≤ z' then z' else z' - 146096) / 146097
  let doe := z' - era * 146097
  let yoe := (doe - doe / 1460 + doe / 36524 - doe / 146096) / 365
  let y := yoe + era * 400
  let doy := doe - (365 * yoe + yoe / 4 - yoe / 100)
  let mp := (5 * doy + 2) / 153
  let d := doy - (153 * mp + 2) / 5 + 1
  let m := mp + (if mp < 10 then 3 else -9)
  (y + (if m ≤ 2 then 1 else 0), m, d)

/-- Year of a day count. -/
def yearOfDay (z : Int) : Int := (daysToCivil z).1

/-- Zero-padded two-digit rendering. -/
def pad2 (n : Int) : String :=
  if n < 10 then "0" ++ toString n else toString n

/-- ISO `YYYY-MM-DD` rendering of a day count. -/
def renderDate (z : Int) : String :=
  let c := daysToCivil z
  toString c.1 ++ "-" ++ pad2 c.2.1 ++ "-" ++ pad2 c.2.2

/-! ## Data model (spec §3) -/

/-- One historical NDVI observation: a calendar date (as a day count) and an
NDVI value. -/
structure NDVISample where
  date : Int
  value : ℚ
deriving DecidableEq, Repr

/-- One forecast step: date plus mean and lower/upper confidence bounds. -/
structure ForecastPoint where
  date : Int
  mean : ℚ
  lower : ℚ
  upper : ℚ
deriving DecidableEq, Repr

/-- The four ordered drought severity levels. -/
inductive SeverityLevel where
  | Normal
  | Alert
  | Alarm
  | Emergency
deriving DecidableEq, Repr

/-- String name of a severity level (the wire value of `drought_level`). -/
def SeverityLevel.name : SeverityLevel → String
  | .Normal => "Normal"
  | .Alert => "Alert"
  | .Alarm => "Alarm"
  | .Emergency => "Emergency"

/-- Modelled from the spec: each SeverityLevel is "bound to a fixed display
color code".  The backend module holding the exact hex values
(`drought_classifier.py`) is not in the repository snapshot; the Alarm color
`#ff9800` is taken from the deployment summary's sample response and the
Alert color `#FFA500` from the README's sample response, the other two are
fixed representative values.  The claims depend only on each level having one
fixed color, not on the particular strings. -/
def SeverityLevel.colorCode : SeverityLevel → String
  | .Normal => "#4caf50"
  | .Alert => "#FFA500"
  | .Alarm => "#ff9800"
  | .Emergency => "#f44336"

/-- The four pipeline error kinds (spec §7). -/
inductive ErrorKind where
  | InvalidHorizon
  | InvalidSeries
  | DegenerateInput
  | ModelInferenceError
deriving DecidableEq, Repr

/-! ## Client: `fetchPrediction` (client/src/services/api.js, lines 48–57)

The client validates the horizon before issuing any HTTP request; an invalid
horizon throws synchronously.  The embedding returns `Except`: `ok` carries
the request body that would be POSTed to `/api/predict`, `error` the thrown
message — an `error` result means no HTTP request was ever issued. -/

/-- The request body `fetchPrediction` POSTs to `/api/predict`. -/
structure PredictRequest where
  horizon : Int
deriving DecidableEq, Repr

/-- The horizons the client accepts: `[2, 4, 6].includes(horizon)` in
`api.js` line 51. -/
def clientValidHorizons : List Int := [2, 4, 6]

/-- `fetchPrediction` from `client/src/services/api.js`: validates the
horizon against `[2, 4, 6]` and throws before any HTTP request otherwise. -/
def fetchPrediction (horizon : Int) : Except String PredictRequest :=
  if clientValidHorizons.contains horizon then
    Except.ok ⟨horizon⟩
  else
    Except.error ("Invalid forecast horizon: " ++ toString horizon ++
      ". Must be 2, 4, or 6 weeks.")

/-! ## Client: historical-data filter (App.jsx, `fetchHistoricalDataHandler`)

The handler filters the fetched samples to those whose date's year is at
least 2019 before storing them in `historicalData` state. -/

/-- One point of the `/api/historical-data` response as the client sees it. -/
structure HistoricalPoint where
  date : Int
  ndvi : ℚ
deriving DecidableEq, Repr

/-- `new Date(point.date).getFullYear()` for an embedded day-count date. -/
def pointYear (p : HistoricalPoint) : Int := yearOfDay p.date

/-- The filter in `fetchHistoricalDataHandler`: keep only points whose year
is `>= 2019`. -/
def filterFrom2019 (data : List HistoricalPoint) : List HistoricalPoint :=
  data.filter (fun p => 2019 ≤ pointYear p)

/-! ## Client: drought alert from a prediction response (App.jsx,
`fetchPredictionHandler`, lines 304–312)

`message: response.insights?.[0] || 'No message available'` and
`setInsights(response.insights || [])`.  A missing `insights` field is
embedded as `none`; JavaScript `||` also replaces an empty first string. -/

/-- The fields of the `/api/predict` response body that the client handler
reads; `insights` is optional to model a response missing the field. -/
structure ClientPredictResponse where
  dates : List String
  ndvi : List ℚ
  lower : List ℚ
  upper : List ℚ
  drought_level : String
  change_rate : ℚ
  insights : Option (List String)
  color_code : String
deriving DecidableEq, Repr

/-- `response.insights?.[0] || 'No message available'`. -/
def firstInsightOrDefault (insights : Option (List String)) : String :=
  match insights with
  | none => "No message available"
  | some l =>
    match l.head? with
    | none => "No message available"
    | some s => if s = "" then "No message available" else s

/-- The drought-alert state the client stores. -/
structure DroughtAlert where
  level : String
  message : String
  colorCode : String
deriving DecidableEq, Repr

/-- The `setDroughtAlert` argument built by `fetchPredictionHandler`. -/
def makeDroughtAlert (r : ClientPredictResponse) : DroughtAlert :=
  { level := r.drought_level
    message := firstInsightOrDefault r.insights
    colorCode := r.color_code }

/-- The `setInsights` argument: `response.insights || []`. -/
def insightsState (r : ClientPredictResponse) : List String :=
  r.insights.getD []

/-! ## ForecastEngine (spec §4.1)

The backend module (`prophet_inference.py` with the orchestration in
`routes.py`) is absent from the repository snapshot — only its callers,
tests and deployment docs are present — so the engine is modelled from the
spec.  The underlying trained model is an opaque function argument
`model : Nat → List (ℚ × ℚ × ℚ)` mapping a step count to `(mean, lower,
upper)` triples, per the collaborator contract of spec §6. -/

/-- Modelled from the spec: the enumerated valid horizons
`{2,4,6,8,10,12}` accepted by `forecast`/`predict` (spec §4.1, §6). -/
def validHorizons : List Int := [2, 4, 6, 8, 10, 12]

/-- Modelled from the spec: `series` must be sorted ascending by date
(spec §4.1); dates are unique within a series (spec §3), hence strict. -/
def sortedAsc : List NDVISample → Bool
  | [] => true
  | [_] => true
  | a :: b :: rest => decide (a.date < b.date) && sortedAsc (b :: rest)

/-- Date of the last sample of a series (`0` for the empty series, which
`forecast` rejects before this is consulted). -/
def lastDate (series : List NDVISample) : Int :=
  ((series.getLast?).map NDVISample.date).getD 0

/-- Last NDVI value of a series (`0` for the empty series). -/
def lastValue (series : List NDVISample) : ℚ :=
  ((series.getLast?).map NDVISample.value).getD 0

/-- Modelled from the spec: the next `n` biweekly (14-day) steps after
`last`, contiguous with no gaps (spec §4.1). -/
def forecastDates (last : Int) : Nat → List Int
  | 0 => []
  | n + 1 => (last + 14) :: forecastDates (last + 14) n

/-- Modelled from the spec: clamp `lower`/`upper` to `mean` if they cross,
so that `lower ≤ mean ≤ upper` always holds on output (spec §4.1 policy). -/
def clampPoint (d : Int) (t : ℚ × ℚ × ℚ) : ForecastPoint :=
  { date := d
    mean := t.1
    lower := min t.2.1 t.1
    upper := max t.2.2 t.1 }

/-- Modelled from the spec: `forecast(series, horizon_weeks)`.  Validates
the horizon (else `InvalidHorizon`, before any model call), validates the
series (non-empty and date-ascending, else `InvalidSeries`), asks the
underlying model for `horizon_weeks / 2` steps, surfaces a model answer of
the wrong shape as `ModelInferenceError`, and clamps each returned triple
onto the contiguous biweekly dates after the last historical date. -/
def forecast (model : Nat → List (ℚ × ℚ × ℚ)) (series : List NDVISample)
    (horizon : Int) : Except ErrorKind (List ForecastPoint) :=
  if validHorizons.contains horizon then
    if sortedAsc series && !series.isEmpty then
      let n := (horizon / 2).toNat
      let raw := model n
      if raw.length = n then
        Except.ok (List.zipWith clampPoint (forecastDates (lastDate series) n) raw)
      else
        Except.error ErrorKind.ModelInferenceError
    else
      Except.error ErrorKind.InvalidSeries
  else
    Except.error ErrorKind.InvalidHorizon

/-! ## DroughtClassifier (spec §4.2)

`drought_classifier.py` is absent from the snapshot, so the classifier is
modelled from the spec: fixed monotonic break points `T1, T2, T3` mapping a
decline beyond `T1` to Alert, beyond `T2` to Alarm, beyond `T3` to
Emergency, and any change at or above `0` or a decline milder than `T1` to
Normal; the spec's worked example fixes "a decline beyond 20% is Alarm", so
`T1 = 10`, `T2 = 20`, `T3 = 40` (percent decline) are used, with half-open
intervals closed on the more-severe side. -/

/-- Modelled from the spec: map a signed percent change rate to a severity
level via the fixed break points. -/
def classifyRate (q : ℚ) : SeverityLevel :=
  if q ≤ -40 then SeverityLevel.Emergency
  else if q ≤ -20 then SeverityLevel.Alarm
  else if q ≤ -10 then SeverityLevel.Alert
  else SeverityLevel.Normal

/-- The severity interval each level occupies on the change-rate line. -/
def inLevel (l : SeverityLevel) (q : ℚ) : Prop :=
  match l with
  | .Emergency => q ≤ -40
  | .Alarm => -40 < q ∧ q ≤ -20
  | .Alert => -20 < q ∧ q ≤ -10
  | .Normal => -10 < q

instance (l : SeverityLevel) (q : ℚ) : Decidable (inLevel l q) := by
  cases l <;> simp only [inLevel] <;> infer_instance

/-- Modelled from the spec: `classify(last_historical, forecast)` computes
`change_rate = (forecast.last().mean - last_historical) / last_historical *
100` and fails with `DegenerateInput` when `last_historical = 0`.  The
orchestrator guarantees a non-empty forecast; an empty one is also reported
as `DegenerateInput`. -/
def classify (last_historical : ℚ) (fc : List ForecastPoint) :
    Except ErrorKind (SeverityLevel × ℚ) :=
  if last_historical = 0 then
    Except.error ErrorKind.DegenerateInput
  else
    match fc.getLast? with
    | none => Except.error ErrorKind.DegenerateInput
    | some p =>
      let rate := (p.mean - last_historical) / last_historical * 100
      Except.ok (classifyRate rate, rate)

/-! ## InsightGenerator (spec §4.3)

`insight_generator.py` is absent from the snapshot, so the generator is
modelled from the spec: 1–3 strings, the first stating trend direction and
magnitude (interpolating the signed percentage and the horizon), the rest
level-specific recommended actions from a fixed per-level template set. -/

/-- Round a rational to an integer number of tenths (round half up). -/
def roundTenths (q : ℚ) : Int := ⌊q * 10 + 1 / 2⌋

/-- Render an integer number of tenths as a signed one-decimal string,
e.g. `-250` ↦ `"-25.0"`, `72` ↦ `"+7.2"`. -/
def renderTenths (t : Int) : String :=
  (if t < 0 then "-" else "+") ++
    toString (t.natAbs / 10) ++ "." ++ toString (t.natAbs % 10)

/-- Signed percentage at one decimal of precision: the change rate rounded
to tenths and rendered with its sign. -/
def renderRate1 (q : ℚ) : String := renderTenths (roundTenths q)

/-- Direction word of the trend. -/
def trendWord (q : ℚ) : String :=
  if q < 0 then "decline" else if q = 0 then "remain stable" else "improve"

/-- Modelled from the spec: the first insight string, stating trend
direction and magnitude and referencing the horizon and the signed
percentage. -/
def trendLine (q : ℚ) (horizon : Int) : String :=
  "Vegetation is expected to " ++ trendWord q ++ " (" ++ renderRate1 q ++
    "% over the next " ++ toString horizon ++ " weeks)."

/-- Modelled from the spec: the fixed per-level template set of recommended
actions. -/
def actionsFor : SeverityLevel → List String
  | .Normal => ["Conditions are within the normal range; continue routine monitoring."]
  | .Alert => ["Monitor conditions closely and prepare contingency plans."]
  | .Alarm => ["Consider moving herds toward fallback grazing areas.",
               "Coordinate with county early-warning officers."]
  | .Emergency => ["Activate emergency response plans immediately.",
                   "Prioritize water access and livestock support programs."]

/-- Modelled from the spec: `generate(level, change_rate, horizon_weeks)`. -/
def generate (level : SeverityLevel) (q : ℚ) (horizon : Int) : List String :=
  trendLine q horizon :: actionsFor level

/-! ## PredictionOrchestrator and serialization (spec §4.4, §6)

`routes.py` is absent from the snapshot, so the orchestrator and the wire
serialization are modelled from the spec: `Validate → Forecast → Classify →
GenerateInsights → Assemble`, short-circuiting on the first failure, with
the response fields named by the wire contract. -/

/-- The serialized `/api/predict` response body. -/
structure PredictionResponse where
  dates : List String
  ndvi : List ℚ
  lower : List ℚ
  upper : List ℚ
  drought_level : String
  change_rate : ℚ
  insights : List String
  color_code : String
deriving DecidableEq, Repr

/-- Modelled from the spec: serialize a forecast plus assessment into the
wire shape; `change_rate` is reported at one decimal of precision. -/
def serialize (fc : List ForecastPoint) (level : SeverityLevel) (q : ℚ)
    (ins : List String) : PredictionResponse :=
  { dates := fc.map (fun p => renderDate p.date)
    ndvi := fc.map ForecastPoint.mean
    lower := fc.map ForecastPoint.lower
    upper := fc.map ForecastPoint.upper
    drought_level := level.name
    change_rate := (roundTenths q : ℚ) / 10
    insights := ins
    color_code := level.colorCode }

/-- Modelled from the spec: `predict(series, horizon_weeks)`, the single
externally callable operation: forecast, classify, generate insights,
assemble; the first failing stage short-circuits the rest. -/
def predict (model : Nat → List (ℚ × ℚ × ℚ)) (series : List NDVISample)
    (horizon : Int) : Except ErrorKind PredictionResponse :=
  match forecast model series horizon with
  | .error e => .error e
  | .ok pts =>
    match classify (lastValue series) pts with
    | .error e => .error e
    | .ok (level, rate) =>
      .ok (serialize pts level rate (generate level rate horizon))

/-! ## Helper lemmas -/

lemma forecastDates_length (last : Int) (n : Nat) :
    (forecastDates last n).length = n := by
  induction n generalizing last with
  | zero => rfl
  | succ n ih => simp [forecastDates, ih]

lemma forecastDates_mem_gt (last : Int) (n : Nat) :
    ∀ d ∈ forecastDates last n, last < d := by
  induction n generalizing last with
  | zero => simp [forecastDates]
  | succ n ih =>
    intro d hd
    simp only [forecastDates, List.mem_cons] at hd
    rcases hd with h | h
    · omega
    · have := ih (last + 14) d h
      omega

lemma forecastDates_chain (last : Int) (n : Nat) :
    List.Chain' (fun a b : Int => a < b) (forecastDates last n) := by
  induction n generalizing last with
  | zero => simp [forecastDates]
  | succ n ih =>
    rw [forecastDates]
    refine List.chain'_cons'.mpr ⟨?_, ih (last + 14)⟩
    intro b hb
    have hmem : b ∈ forecastDates (last + 14) n := List.mem_of_mem_head? hb
    have := forecastDates_mem_gt (last + 14) n b hmem
    omega

lemma forecastDates_getElem (last : Int) (n : Nat) (i : Nat) (hi : i < n) :
    (forecastDates last n)[i]? = some (last + 14 * (i + 1)) := by
  induction n generalizing last i with
  | zero => omega
  | succ n ih =>
    cases i with
    | zero => simp [forecastDates]
    | succ i =>
      have h := ih (last + 14) i (by omega)
      simp only [forecastDates, List.getElem?_cons_succ]
      rw [h]
      congr 1
      push_cast
      ring

lemma zipWith_clampPoint_date (ds : List Int) (ts : List (ℚ × ℚ × ℚ))
    (h : ds.length = ts.length) :
    (List.zipWith clampPoint ds ts).map ForecastPoint.date = ds := by
  induction ds generalizing ts with
  | nil => simp
  | cons d ds ih =>
    cases ts with
    | nil => simp at h
    | cons t ts =>
      simp only [List.length_cons, Nat.succ.injEq] at h
      simp only [List.zipWith_cons_cons, List.map_cons]
      rw [ih ts h]
      rfl

lemma zipWith_clampPoint_bounds (ds : List Int) (ts : List (ℚ × ℚ × ℚ)) :
    ∀ p ∈ List.zipWith clampPoint ds ts, p.lower ≤ p.mean ∧ p.mean ≤ p.upper := by
  induction ds generalizing ts with
  | nil => simp
  | cons d ds ih =>
    cases ts with
    | nil => simp
    | cons t ts =>
      intro p hp
      simp only [List.zipWith_cons_cons, List.mem_cons] at hp
      rcases hp with rfl | hp
      · exact ⟨min_le_right _ _, le_max_right _ _⟩
      · exact ih ts p hp

lemma forecast_ok (model : Nat → List (ℚ × ℚ × ℚ)) (series : List NDVISample)
    (h : Int) (hh : validHorizons.contains h = true)
    (hs : sortedAsc series = true) (hne : series.isEmpty = false)
    (hm : (model (h / 2).toNat).length = (h / 2).toNat) :
    forecast model series h =
      Except.ok (List.zipWith clampPoint
        (forecastDates (lastDate series) (h / 2).toNat) (model (h / 2).toNat)) := by
  unfold forecast
  simp only [hh, if_true, hs, hne, Bool.not_false, Bool.and_self, if_pos, hm]

lemma classifyRate_eq_iff (q : ℚ) (l : SeverityLevel) :
    classifyRate q = l ↔ inLevel l q := by
  unfold classifyRate inLevel
  rcases l <;> split_ifs with h1 h2 h3 <;>
    simp_all <;> first
      | linarith
      | (intro hc; linarith)

/-! ## Claim theorems -/

/-- C1 counterexample: `8` is in the spec's enumerated horizon set
`{2,4,6,8,10,12}`, yet the client's `fetchPrediction 8` throws (before any
HTTP request) instead of accepting it. -/
theorem claim1_counterexample :
    validHorizons.contains 8 = true ∧
    fetchPrediction 8 =
      Except.error "Invalid forecast horizon: 8. Must be 2, 4, or 6 weeks." := by
  exact ⟨rfl, rfl⟩

/-- C1 (amended): the client's `fetchPrediction` accepts exactly the
horizons `{2,4,6}` and throws before issuing any HTTP request for every
other value; the server-side `forecast` (modelled from the spec) fails with
`InvalidHorizon` for every horizon outside `{2,4,6,8,10,12}` without
consulting the model, and never raises `InvalidHorizon` for a horizon
inside that set. -/
theorem claim1_horizon_validation (h : Int) (model : Nat → List (ℚ × ℚ × ℚ))
    (series : List NDVISample) :
    (fetchPrediction h = Except.ok ⟨h⟩ ↔ clientValidHorizons.contains h = true) ∧
    (clientValidHorizons.contains h = false →
      fetchPrediction h = Except.error
        ("Invalid forecast horizon: " ++ toString h ++ ". Must be 2, 4, or 6 weeks.")) ∧
    (validHorizons.contains h = false →
      forecast model series h = Except.error ErrorKind.InvalidHorizon) ∧
    (validHorizons.contains h = true →
      forecast model series h ≠ Except.error ErrorKind.InvalidHorizon) := by
  refine ⟨?_, ?_, ?_, ?_⟩
  · unfold fetchPrediction
    constructor
    · intro hok
      by_contra hc
      simp only [Bool.not_eq_true] at hc
      rw [hc] at hok
      simp at hok
    · intro hc
      rw [hc]
      rfl
  · intro hc
    unfold fetchPrediction
    rw [hc]
    rfl
  · intro hc
    unfold forecast
    rw [hc]
    rfl
  · intro hc
    unfold forecast
    rw [hc]
    simp only [if_true]
    split_ifs <;> simp

/-- C1 witness: the amended theorem applied at the concrete horizons `5`
(outside both sets) and `8` (server-valid, client-rejected). -/
theorem claim1_witness :
    fetchPrediction 5 =
      Except.error "Invalid forecast horizon: 5. Must be 2, 4, or 6 weeks." ∧
    forecast (fun _ => []) [] 5 = Except.error ErrorKind.InvalidHorizon ∧
    forecast (fun _ => []) [] 8 ≠ Except.error ErrorKind.InvalidHorizon := by
  have h5 := claim1_horizon_validation 5 (fun _ => []) []
  have h8 := claim1_horizon_validation 8 (fun _ => []) []
  exact ⟨h5.2.1 rfl, h5.2.2.1 rfl, h8.2.2.2 rfl⟩

/-- C3: `classify`'s severity map is a total, deterministic function of the
change rate — the four severity intervals partition the (rational) change
rate line exactly: every change rate lies in exactly one level's interval,
and `classifyRate` returns a level precisely when the rate is in that
level's interval. -/
theorem claim3_classify_partition :
    (∀ q : ℚ, ∃! l : SeverityLevel, inLevel l q) ∧
    ∀ q : ℚ, ∀ l : SeverityLevel, classifyRate q = l ↔ inLevel l q := by
  refine ⟨fun q => ⟨classifyRate q, (classifyRate_eq_iff q _).mp rfl,
    fun l hl => ((classifyRate_eq_iff q l).mpr hl).symm⟩, fun q l => classifyRate_eq_iff q l⟩

/-- C9: the client's historical-data handler keeps exactly the fetched
points whose date's year is at least 2019; every point stored in
`historicalData` state has year `≥ 2019`, and a returned point is kept iff
its year is `≥ 2019`. -/
theorem claim9_historical_filter (data : List HistoricalPoint) :
    (∀ p ∈ filterFrom2019 data, 2019 ≤ pointYear p) ∧
    ∀ p ∈ data, (p ∈ filterFrom2019 data ↔ 2019 ≤ pointYear p) := by
  constructor
  · intro p hp
    have := List.mem_filter.mp hp
    simpa using this.2
  · intro p hp
    constructor
    · intro hf
      simpa using (List.mem_filter.mp hf).2
    · intro hy
      exact List.mem_filter.mpr ⟨hp, by simpa using hy⟩

/-- C9 witness: the filter theorem applied to a concrete response holding a
2018 point and a 2020 point. -/
theorem claim9_witness :
    (HistoricalPoint.mk (civilToDays 2020 5 1) 1 ∈
        filterFrom2019 [⟨civilToDays 2018 5 1, 0⟩, ⟨civilToDays 2020 5 1, 1⟩] ↔
      2019 ≤ pointYear ⟨civilToDays 2020 5 1, 1⟩) ∧
    (HistoricalPoint.mk (civilToDays 2018 5 1) 0 ∈
        filterFrom2019 [⟨civilToDays 2018 5 1, 0⟩, ⟨civilToDays 2020 5 1, 1⟩] ↔
      2019 ≤ pointYear ⟨civilToDays 2018 5 1, 0⟩) := by
  have h := claim9_historical_filter [⟨civilToDays 2018 5 1, 0⟩, ⟨civilToDays 2020 5 1, 1⟩]
  exact ⟨h.2 _ (by simp), h.2 _ (by simp)⟩

/-- C10: when a prediction response's `insights` field is missing (`none`)
or an empty array, the client still builds a drought alert whose message is
the fixed string `"No message available"` and stores an empty insights
list, with the alert's level and color taken from the response as usual. -/
theorem claim10_missing_insights (r : ClientPredictResponse)
    (h : r.insights = none ∨ r.insights = some []) :
    (makeDroughtAlert r).message = "No message available" ∧
    insightsState r = [] ∧
    (makeDroughtAlert r).level = r.drought_level ∧
    (makeDroughtAlert r).colorCode = r.color_code := by
  rcases h with h | h <;>
    simp [makeDroughtAlert, firstInsightOrDefault, insightsState, h]

/-- C10 witness: the theorem applied to a concrete response with the
`insights` field missing. -/
theorem claim10_witness :
    (makeDroughtAlert
        ⟨["2026-02-12"], [1], [0], [1], "Alarm", -25, none, "#ff9800"⟩).message =
      "No message available" ∧
    insightsState ⟨["2026-02-12"], [1], [0], [1], "Alarm", -25, none, "#ff9800"⟩ = [] ∧
    (makeDroughtAlert
        ⟨["2026-02-12"], [1], [0], [1], "Alarm", -25, none, "#ff9800"⟩).level = "Alarm" ∧
    (makeDroughtAlert
        ⟨["2026-02-12"], [1], [0], [1], "Alarm", -25, none, "#ff9800"⟩).colorCode =
      "#ff9800" :=
  claim10_missing_insights _ (Or.inl rfl)

/-- C2: for every valid horizon and every non-empty date-ascending series,
with the model answering the requested number of steps, `forecast` succeeds
with exactly `horizon/2` points whose dates are the strictly increasing,
contiguous biweekly (14-day) steps after the last historical date. -/
theorem claim2_forecast_shape (model : Nat → List (ℚ × ℚ × ℚ))
    (series : List NDVISample) (h : Int)
    (hh : validHorizons.contains h = true)
    (hs : sortedAsc series = true) (hne : series.isEmpty = false)
    (hm : (model (h / 2).toNat).length = (h / 2).toNat) :
    ∃ pts, forecast model series h = Except.ok pts ∧
      pts.length = (h / 2).toNat ∧
      pts.map ForecastPoint.date = forecastDates (lastDate series) (h / 2).toNat ∧
      (∀ i : Nat, i < (h / 2).toNat →
        (pts.map ForecastPoint.date)[i]? = some (lastDate series + 14 * (i + 1))) ∧
      List.Chain' (fun a b : Int => a < b) (pts.map ForecastPoint.date) ∧
      ∀ p ∈ pts, lastDate series < p.date := by
  refine ⟨_, forecast_ok model series h hh hs hne hm, ?_, ?_, ?_, ?_, ?_⟩
  · rw [List.length_zipWith, forecastDates_length, hm]
    exact Nat.min_self _
  · exact zipWith_clampPoint_date _ _ (by rw [forecastDates_length, hm])
  · intro i hi
    rw [zipWith_clampPoint_date _ _ (by rw [forecastDates_length, hm])]
    exact forecastDates_getElem _ _ i hi
  · rw [zipWith_clampPoint_date _ _ (by rw [forecastDates_length, hm])]
    exact forecastDates_chain _ _
  · intro p hp
    have hd : p.date ∈ (List.zipWith clampPoint
        (forecastDates (lastDate series) (h / 2).toNat)
        (model (h / 2).toNat)).map ForecastPoint.date :=
      List.mem_map_of_mem ForecastPoint.date hp
    rw [zipWith_clampPoint_date _ _ (by rw [forecastDates_length, hm])] at hd
    exact forecastDates_mem_gt _ _ p.date hd

/-- C2 witness: the theorem applied to a concrete 4-week forecast over a
one-sample series with a model answering two steps. -/
theorem claim2_witness :
    ∃ pts, forecast (fun n => List.replicate n ((3 : ℚ)/10, 1/4, 7/20)) [⟨0, 1⟩] 4 =
        Except.ok pts ∧
      pts.length = ((4 : Int) / 2).toNat ∧
      pts.map ForecastPoint.date = forecastDates (lastDate [⟨0, 1⟩]) ((4 : Int) / 2).toNat ∧
      (∀ i : Nat, i < ((4 : Int) / 2).toNat →
        (pts.map ForecastPoint.date)[i]? = some (lastDate [⟨0, 1⟩] + 14 * (i + 1))) ∧
      List.Chain' (fun a b : Int => a < b) (pts.map ForecastPoint.date) ∧
      ∀ p ∈ pts, lastDate [⟨0, 1⟩] < p.date :=
  claim2_forecast_shape (fun n => List.replicate n ((3 : ℚ)/10, 1/4, 7/20))
    [⟨0, 1⟩] 4 rfl rfl rfl rfl

/-- C4: `classify` computes
`change_rate = (forecast.last().mean - last_historical) / last_historical * 100`
whenever `last_historical` is nonzero, and fails with `DegenerateInput` when
`last_historical = 0` (no infinite or undefined rate can be produced: the
division is only performed under the nonzero guard). -/
theorem claim4_change_rate (last_historical : ℚ) (fc : List ForecastPoint)
    (hne : fc ≠ []) :
    (last_historical = 0 →
      classify last_historical fc = Except.error ErrorKind.DegenerateInput) ∧
    (last_historical ≠ 0 → ∃ p, fc.getLast? = some p ∧
      classify last_historical fc = Except.ok
        (classifyRate ((p.mean - last_historical) / last_historical * 100),
          (p.mean - last_historical) / last_historical * 100)) := by
  constructor
  · intro h
    simp [classify, h]
  · intro h
    obtain ⟨p, hp⟩ : ∃ p, fc.getLast? = some p := by
      cases hfc : fc.getLast? with
      | none => exact absurd (List.getLast?_eq_none_iff.mp hfc) hne
      | some p => exact ⟨p, rfl⟩
    refine ⟨p, hp, ?_⟩
    simp [classify, h, hp]

/-- C4 witness: the theorem applied at `last_historical = 0` (degenerate)
and at `last_historical = 2/5` with a singleton forecast of mean `3/10`. -/
theorem claim4_witness :
    classify 0 [⟨14, 3/10, 1/4, 7/20⟩] = Except.error ErrorKind.DegenerateInput ∧
    ∃ p, List.getLast? [(⟨14, 3/10, 1/4, 7/20⟩ : ForecastPoint)] = some p ∧
      classify (2/5) [⟨14, 3/10, 1/4, 7/20⟩] = Except.ok
        (classifyRate ((p.mean - 2/5) / (2/5) * 100),
          (p.mean - 2/5) / (2/5) * 100) := by
  refine ⟨(claim4_change_rate 0 [⟨14, 3/10, 1/4, 7/20⟩] (by simp)).1 rfl, ?_⟩
  exact (claim4_change_rate (2/5) [⟨14, 3/10, 1/4, 7/20⟩] (by simp)).2 (by norm_num)

/-- C5: every point of every successful `forecast` satisfies
`lower ≤ mean ≤ upper` — the clamping repairs any crossed bound the
underlying model returns, so an inconsistent point is never propagated. -/
theorem claim5_bounds_invariant (model : Nat → List (ℚ × ℚ × ℚ))
    (series : List NDVISample) (h : Int) (pts : List ForecastPoint)
    (hok : forecast model series h = Except.ok pts) :
    ∀ p ∈ pts, p.lower ≤ p.mean ∧ p.mean ≤ p.upper := by
  unfold forecast at hok
  split_ifs at hok with h1 h2
  dsimp only at hok
  split_ifs at hok with h3
  injection hok with hok
  rw [← hok]
  exact zipWith_clampPoint_bounds _ _

/-- C5 witness: the theorem applied to a forecast whose underlying model
returns a crossed bound (`lower = 7/20 > mean = 3/10`). -/
theorem claim5_witness :
    ∃ pts, forecast (fun _ => [((3 : ℚ)/10, 7/20, 1/2)]) [⟨0, 1⟩] 2 =
        Except.ok pts ∧
      ∀ p ∈ pts, p.lower ≤ p.mean ∧ p.mean ≤ p.upper :=
  ⟨_, rfl, claim5_bounds_invariant (fun _ => [((3 : ℚ)/10, 7/20, 1/2)]) [⟨0, 1⟩] 2 _ rfl⟩

/-- C6: the serialized result carries parallel `dates`/`ndvi`/`lower`/
`upper` sequences of equal length whose `i`-th entries all come from the
`i`-th ForecastPoint, plus the severity level's name as `drought_level`,
the change rate at one decimal of precision, the insight strings in order,
and the level's display color. -/
theorem claim6_serialization (fc : List ForecastPoint) (level : SeverityLevel)
    (q : ℚ) (ins : List String) :
    (serialize fc level q ins).dates.length = fc.length ∧
    (serialize fc level q ins).ndvi.length = fc.length ∧
    (serialize fc level q ins).lower.length = fc.length ∧
    (serialize fc level q ins).upper.length = fc.length ∧
    (∀ i : Nat,
      (serialize fc level q ins).dates[i]? = (fc[i]?).map (fun p => renderDate p.date) ∧
      (serialize fc level q ins).ndvi[i]? = (fc[i]?).map ForecastPoint.mean ∧
      (serialize fc level q ins).lower[i]? = (fc[i]?).map ForecastPoint.lower ∧
      (serialize fc level q ins).upper[i]? = (fc[i]?).map ForecastPoint.upper) ∧
    (serialize fc level q ins).drought_level = level.name ∧
    (serialize fc level q ins).change_rate = (roundTenths q : ℚ) / 10 ∧
    (∃ t : Int, (serialize fc level q ins).change_rate = (t : ℚ) / 10) ∧
    (serialize fc level q ins).insights = ins ∧
    (serialize fc level q ins).color_code = level.colorCode := by
  refine ⟨by simp [serialize], by simp [serialize], by simp [serialize], by simp [serialize],
    fun i => ⟨?_, ?_, ?_, ?_⟩, rfl, rfl, ⟨roundTenths q, rfl⟩, rfl, rfl⟩ <;>
    simp [serialize]

/-- C7: for every severity level, change rate and horizon, `generate`
returns between 1 and 3 strings, and the first one is the trend line, which
states the trend direction and magnitude by interpolating the direction
word, the signed one-decimal percentage and the horizon. -/
theorem claim7_generate (level : SeverityLevel) (q : ℚ) (horizon : Int) :
    1 ≤ (generate level q horizon).length ∧
    (generate level q horizon).length ≤ 3 ∧
    (generate level q horizon).head? = some (trendLine q horizon) ∧
    trendLine q horizon =
      "Vegetation is expected to " ++ trendWord q ++ " (" ++ renderRate1 q ++
        "% over the next " ++ toString horizon ++ " weeks)." := by
  refine ⟨?_, ?_, rfl, rfl⟩ <;> cases level <;> simp [generate, actionsFor]

/-- C8: the spec's worked scenario — a series ending at NDVI `0.40` on
2026-01-29 with the model forecasting one biweekly step of mean `0.30`,
lower `0.25`, upper `0.35` at `horizon_weeks = 2` — yields
`change_rate = -25.0`, severity `Alarm`, and `dates = ["2026-02-12"]`. -/
theorem claim8_scenario :
    ∃ r, predict (fun _ => [((3 : ℚ)/10, 1/4, 7/20)])
        [⟨civilToDays 2026 1 29, 2/5⟩] 2 = Except.ok r ∧
      r.change_rate = -25 ∧
      r.drought_level = SeverityLevel.Alarm.name ∧
      r.dates = ["2026-02-12"] ∧
      r.color_code = SeverityLevel.Alarm.colorCode := by
  have hrate : (((3 : ℚ)/10) - 2/5) / (2/5) * 100 = -25 := by norm_num
  have hcl : classify ((2 : ℚ)/5)
      [clampPoint (civilToDays 2026 1 29 + 14) ((3 : ℚ)/10, 1/4, 7/20)] =
      Except.ok (SeverityLevel.Alarm, -25) := by
    unfold classify
    rw [if_neg (by norm_num)]
    simp only [List.getLast?_singleton]
    rw [show (clampPoint (civilToDays 2026 1 29 + 14) ((3 : ℚ)/10, 1/4, 7/20)).mean
        = (3 : ℚ)/10 from rfl, hrate]
    rw [show classifyRate (-25) = SeverityLevel.Alarm by norm_num [classifyRate]]
  have hpred : predict (fun _ => [((3 : ℚ)/10, 1/4, 7/20)])
      [⟨civilToDays 2026 1 29, 2/5⟩] 2 =
      Except.ok (serialize
        [clampPoint (civilToDays 2026 1 29 + 14) ((3 : ℚ)/10, 1/4, 7/20)]
        SeverityLevel.Alarm (-25)
        (generate SeverityLevel.Alarm (-25) 2)) := by
    unfold predict
    rw [show forecast (fun _ => [((3 : ℚ)/10, 1/4, 7/20)])
        [⟨civilToDays 2026 1 29, 2/5⟩] 2 =
        Except.ok [clampPoint (civilToDays 2026 1 29 + 14) ((3 : ℚ)/10, 1/4, 7/20)]
      from rfl]
    dsimp only
    rw [show lastValue [⟨civilToDays 2026 1 29, 2/5⟩] = (2 : ℚ)/5 from rfl, hcl]
  refine ⟨_, hpred, ?_, rfl, ?_, rfl⟩
  · show (roundTenths (-25) : ℚ) / 10 = -25
    norm_num [roundTenths]
  · show [renderDate (civilToDays 2026 1 29 + 14)] = ["2026-02-12"]
    rfl

end DroughtPredictor
